import Mathlib

/-
Verification of the hand-tracker 3D demo: a shallow embedding of the
gesture-to-transform mapper (processHandResults and the animation/session
state), the reactive audio mapper (DynamicAudioEngine) and the video
recorder (VideoRecorder), with theorems about the behaviours the
specification describes.

Numbers are modelled as exact rationals.  The JavaScript Math functions
sqrt, cos and sin, and the constant Math.PI, are irrational-valued and are
therefore passed as explicit parameters; every theorem either holds for all
interpretations of these parameters or assumes only their defining values
at the points where the program evaluates them (for example cos 0 = 1).
-/

namespace HandTracker

/-- A 3D vector with rational components, standing for THREE.Vector3 (and
for THREE.Euler triples of angles, which the program stores and copies
componentwise). -/
structure Vec3 where
  x : ℚ
  y : ℚ
  z : ℚ
deriving DecidableEq, Repr

/-- The zero vector (0, 0, 0). -/
def Vec3.zero : Vec3 := ⟨0, 0, 0⟩

instance : Inhabited Vec3 := ⟨Vec3.zero⟩

/-- THREE.Vector3.lerp(v, alpha): each component moves toward v by the
fraction alpha: this.x += (v.x - this.x) * alpha, and likewise for y, z. -/
def Vec3.lerp (a b : Vec3) (t : ℚ) : Vec3 :=
  ⟨a.x + (b.x - a.x) * t, a.y + (b.y - a.y) * t, a.z + (b.z - a.z) * t⟩

/-- Dot product of two vectors, as in THREE.Vector3.dot. -/
def dot (a b : Vec3) : ℚ := a.x * b.x + a.y * b.y + a.z * b.z

/-- The three landmarks of a detected hand that processHandResults reads:
landmarks[0] (wrist), landmarks[4] (thumb tip) and landmarks[8] (index
finger tip).  The remaining 18 landmarks are only drawn, never used in the
transform computation. -/
structure Hand where
  wrist : Vec3
  thumb : Vec3
  indexTip : Vec3
deriving DecidableEq, Repr

instance : Inhabited Hand := ⟨⟨Vec3.zero, Vec3.zero, Vec3.zero⟩⟩

/-- One frame of pose-estimator output as processHandResults consumes it:
the detected hands, and for each (when present) the categoryName of its
first handedness entry, "Left" or "Right" (an empty string when the
estimator gives none). -/
structure FrameInput where
  landmarks : List Hand
  handednesses : List String
deriving DecidableEq, Repr

/-- The loop over landmark indices that records the last index labelled
"Left" and the last labelled "Right" (README lines 345-354); -1 stands for
not found, as in the source. -/
def findHandIndices (n : ℕ) (hs : List String) : Int × Int :=
  (List.range n).foldl
    (fun acc i =>
      match hs.get? i with
      | some c =>
          if c = "Left" then ((i : Int), acc.2)
          else if c = "Right" then (acc.1, (i : Int))
          else acc
      | none => acc)
    (-1, -1)

/-- Hand selection (README lines 356-373): the fallback chain when
handedness is missing, then rotationHandIndex and zoomHandIndex. -/
def selectHands (n : ℕ) (hs : List String) : Int × Int :=
  let p := findHandIndices n hs
  let q : Int × Int :=
    if p.1 = -1 ∧ p.2 = -1 then (0, if 1 < n then 1 else -1)
    else if p.1 = -1 then (p.2, -1)
    else if p.2 = -1 then (p.1, -1)
    else p
  (if 0 ≤ q.1 then q.1 else 0,
   if 0 ≤ q.2 then q.2 else if 1 < n then 1 else -1)

/-- CALIBRATION_FRAME_COUNT = 10: frames averaged for a stable calibration. -/
def CALIBRATION_FRAME_COUNT : ℕ := 10

/-- pinchScale = 12.5: maps pinch distance to zoom range (README line 537). -/
def pinchScale : ℚ := 25 / 2

/-- baseZoom = 0.5: starting zoom when the pinch is at minimum (README line
538). -/
def baseZoom : ℚ := 1 / 2

/-- The rotation-hand calibration step (README lines 384-423).  Given the
current hand0Calibration, the shared calibrationFrames counter, and the
rotation-hand wrist, it returns the new calibration, the new counter and
the derived offset (rotationHandX, rotationHandY, rotationHandZ).  A null
calibration seeds the anchor and sets the counter to 1; otherwise, while
the counter is below 10 it is incremented and the anchor updated as a
running average; the offset is the scaled difference from the anchor once
the counter has reached 10, and (0, 0, 0) before that. -/
def rotCalibStep (calib : Option Vec3) (frames : ℕ) (w : Vec3) :
    Option Vec3 × ℕ × Vec3 :=
  match calib with
  | none => (some w, 1, Vec3.zero)
  | some c =>
      let fc : ℕ := if frames < CALIBRATION_FRAME_COUNT then frames + 1 else frames
      let c : Vec3 :=
        if frames < CALIBRATION_FRAME_COUNT then
          ⟨(c.x * ((fc : ℚ) - 1) + w.x) / (fc : ℚ),
           (c.y * ((fc : ℚ) - 1) + w.y) / (fc : ℚ),
           (c.z * ((fc : ℚ) - 1) + w.z) / (fc : ℚ)⟩
        else c
      if CALIBRATION_FRAME_COUNT ≤ fc then
        (some c, fc, ⟨(w.x - c.x) * 10, (c.y - w.y) * 10, (w.z - c.z) * 5⟩)
      else (some c, fc, Vec3.zero)

/-- The zoom-hand calibration step (README lines 492-522).  It reads the
shared calibrationFrames counter as left by the rotation-hand step of the
same frame but never increments it; a null calibration seeds the anchor
without touching the counter. -/
def zoomCalibStep (calib : Option Vec3) (frames : ℕ) (w : Vec3) :
    Option Vec3 × Vec3 :=
  match calib with
  | none => (some w, Vec3.zero)
  | some c =>
      let c : Vec3 :=
        if frames < CALIBRATION_FRAME_COUNT then
          ⟨(c.x * ((frames : ℚ) - 1) + w.x) / (frames : ℚ),
           (c.y * ((frames : ℚ) - 1) + w.y) / (frames : ℚ),
           (c.z * ((frames : ℚ) - 1) + w.z) / (frames : ℚ)⟩
        else c
      if CALIBRATION_FRAME_COUNT ≤ frames then
        (some c, ⟨(w.x - c.x) * 10, (c.y - w.y) * 10, (w.z - c.z) * 5⟩)
      else (some c, Vec3.zero)

/-- The thumb-to-index-fingertip pinch distance:
Math.sqrt((tx-ix)^2 + (ty-iy)^2 + (tz-iz)^2).  sqrt is the Math.sqrt
parameter. -/
def pinchDistance (sqrt : ℚ → ℚ) (h : Hand) : ℚ :=
  sqrt ((h.thumb.x - h.indexTip.x) ^ 2 + (h.thumb.y - h.indexTip.y) ^ 2 +
        (h.thumb.z - h.indexTip.z) ^ 2)

/-- The mutable state processHandResults reads and writes (README lines
191-207): transform targets, the per-hand positions, the calibration
anchors, the shared calibration frame counter and the hand-control flag. -/
structure GestureState where
  targetPan : Vec3
  targetRotation : Vec3
  targetZoom : ℚ
  hand0Position : Vec3
  hand1Position : Vec3
  hand0Calibration : Option Vec3
  hand1Calibration : Option Vec3
  calibrationFrames : ℕ
  isHandControlled : Bool
deriving DecidableEq, Repr

/-- Initial values of the gesture state (README lines 191-207). -/
def initGestureState : GestureState :=
  { targetPan := Vec3.zero
    targetRotation := Vec3.zero
    targetZoom := 1
    hand0Position := Vec3.zero
    hand1Position := Vec3.zero
    hand0Calibration := none
    hand1Calibration := none
    calibrationFrames := 0
    isHandControlled := false }

/-- processHandResults (README lines 326-598), restricted to its effect on
the gesture state (canvas drawing and the status text are omitted).  sqrt
and piQ are the Math.sqrt function and Math.PI constant. -/
def processHandResults (sqrt : ℚ → ℚ) (piQ : ℚ) (s : GestureState)
    (f : FrameInput) : GestureState :=
  if f.landmarks.length = 0 then
    -- No hands: reset targets to neutral and clear the calibration.
    { s with
      isHandControlled := false
      targetPan := Vec3.zero
      targetRotation := Vec3.zero
      targetZoom := 1
      hand0Calibration := none
      hand1Calibration := none
      calibrationFrames := 0 }
  else
    let n := f.landmarks.length
    let idx := selectHands n f.handednesses
    let rotationHand := f.landmarks.getD idx.1.toNat default
    let w0 := rotationHand.wrist
    let r0 := rotCalibStep s.hand0Calibration s.calibrationFrames w0
    let off0 := r0.2.2
    let rotationHandPinchDistance := pinchDistance sqrt rotationHand
    let normalizedPinch := rotationHandPinchDistance * 10
    let rotationY := (w0.x - 1 / 2) * piQ * 2
    let rotationX := (1 / 2 - w0.y) * piQ
    let tRot : Vec3 := ⟨rotationX, rotationY, normalizedPinch⟩
    if 0 ≤ idx.2 ∧ idx.2 < (n : Int) then
      let zoomHand := f.landmarks.getD idx.2.toNat default
      let r1 := zoomCalibStep s.hand1Calibration r0.2.1 zoomHand.wrist
      let off1 := r1.2
      let zoomHandPinchDistance := pinchDistance sqrt zoomHand
      { isHandControlled := true
        targetPan := s.targetPan.lerp
          ⟨(off0.x + off1.x) / 2, (off0.y + off1.y) / 2, (off0.z + off1.z) / 2⟩
          (1 / 10)
        targetRotation := tRot
        targetZoom := baseZoom + zoomHandPinchDistance * pinchScale
        hand0Position := off0
        hand1Position := off1
        hand0Calibration := r0.1
        hand1Calibration := r1.1
        calibrationFrames := r0.2.1 }
    else
      { isHandControlled := true
        targetPan := s.targetPan.lerp off0 (1 / 10)
        targetRotation := tRot
        targetZoom := 1
        hand0Position := off0
        hand1Position := s.hand1Position
        hand0Calibration := r0.1
        hand1Calibration := s.hand1Calibration
        calibrationFrames := r0.2.1 }

/-- Processing a sequence of frames in order. -/
def runFrames (sqrt : ℚ → ℚ) (piQ : ℚ) (s : GestureState)
    (inputs : List FrameInput) : GestureState :=
  inputs.foldl (processHandResults sqrt piQ) s

/-- Rotation about the x axis by an angle with cosine c and sine s. -/
def rotAxisX (c s : ℚ) (v : Vec3) : Vec3 :=
  ⟨v.x, c * v.y - s * v.z, s * v.y + c * v.z⟩

/-- Rotation about the y axis by an angle with cosine c and sine s. -/
def rotAxisY (c s : ℚ) (v : Vec3) : Vec3 :=
  ⟨c * v.x + s * v.z, v.y, -s * v.x + c * v.z⟩

/-- Rotation about the z axis by an angle with cosine c and sine s. -/
def rotAxisZ (c s : ℚ) (v : Vec3) : Vec3 :=
  ⟨c * v.x - s * v.y, s * v.x + c * v.y, v.z⟩

/-- THREE.Vector3.applyEuler with the default rotation order XYZ:
v maps to Rx(e.x) (Ry(e.y) (Rz(e.z) v)).  cosQ and sinQ are the Math.cos
and Math.sin parameters. -/
def applyEuler (cosQ sinQ : ℚ → ℚ) (e : Vec3) (v : Vec3) : Vec3 :=
  rotAxisX (cosQ e.x) (sinQ e.x)
    (rotAxisY (cosQ e.y) (sinQ e.y)
      (rotAxisZ (cosQ e.z) (sinQ e.z) v))

/-- The six axis-aligned side normals in the insertion order of the sides
object in detectSceneSide (audioEngine.ts lines 222-229); Object.entries
iterates them in this order. -/
def sideVectors : List (String × Vec3) :=
  [("front", ⟨0, 0, 1⟩), ("back", ⟨0, 0, -1⟩), ("left", ⟨-1, 0, 0⟩),
   ("right", ⟨1, 0, 0⟩), ("top", ⟨0, 1, 0⟩), ("bottom", ⟨0, -1, 0⟩)]

/-- DynamicAudioEngine.detectSceneSide (audioEngine.ts lines 216-249):
rotate the six side normals by the scene rotation, then keep the side whose
dot product with the camera view direction is largest.  The running maximum
starts at -Infinity, modelled as none: any rational dot product beats it.
The camera view direction is taken as a parameter (the source obtains it
from camera.getWorldDirection). -/
def sideStep (cameraDirection : Vec3) (acc : String × Option ℚ)
    (p : String × Vec3) : String × Option ℚ :=
  let d := dot p.2 cameraDirection
  match acc.2 with
  | none => (p.1, some d)
  | some m => if m < d then (p.1, some d) else acc

/-- detectSceneSide continued: the fold over the six rotated sides with the
running maximum starting at ("center", -Infinity). -/
def detectSceneSide (cosQ sinQ : ℚ → ℚ) (rotation : Vec3)
    (cameraDirection : Vec3) : String :=
  let rotated := sideVectors.map fun p => (p.1, applyEuler cosQ sinQ rotation p.2)
  (rotated.foldl (sideStep cameraDirection) ("center", none)).1

/-- What one per-frame update of a sound channel does to its synthesizer:
release the note, do nothing (guard or debounce), or trigger an attack at a
frequency with a decibel volume. -/
inductive SynthAction where
  | release : SynthAction
  | skip : SynthAction
  | play : ℚ → ℚ → SynthAction
deriving DecidableEq, Repr

/-- The per-channel mutable state of the audio engine: the exponentially
smoothed speed and the channel entry of the lastSoundTime debounce map
(milliseconds, as Date.now). -/
structure SoundChannel where
  smoothed : ℚ
  lastSoundTime : ℚ
deriving DecidableEq, Repr

/-- MIN_SPEED_THRESHOLD = 0.05. -/
def MIN_SPEED_THRESHOLD : ℚ := 1 / 20

/-- smoothingFactor = 0.15. -/
def smoothingFactor : ℚ := 3 / 20

/-- smoothValue(current, previous, factor) = previous * (1 - factor) +
current * factor (audioEngine.ts lines 132-138). -/
def smoothValue (current previous factor : ℚ) : ℚ :=
  previous * (1 - factor) + current * factor

/-- DynamicAudioEngine.updateRotationSound (audioEngine.ts lines 316-341).
enabled stands for the guard that the synth exists and the engine is
enabled; now is Date.now in milliseconds.  The debounce window is
minTimeBetweenSounds * 1000 = 100 ms. -/
def updateRotationSound (enabled : Bool) (now speed : ℚ)
    (ch : SoundChannel) : SoundChannel × SynthAction :=
  if !enabled then (ch, .skip)
  else
    let sm := smoothValue speed ch.smoothed smoothingFactor
    if sm < MIN_SPEED_THRESHOLD then ({ ch with smoothed := sm }, .release)
    else if now - ch.lastSoundTime < 100 then ({ ch with smoothed := sm }, .skip)
    else ({ smoothed := sm, lastSoundTime := now },
          .play (220 + sm * 80) (min (sm * 15 - 25) 0))

/-- DynamicAudioEngine.updatePanSound (audioEngine.ts lines 344-368). -/
def updatePanSound (enabled : Bool) (now speed : ℚ)
    (ch : SoundChannel) : SoundChannel × SynthAction :=
  if !enabled then (ch, .skip)
  else
    let sm := smoothValue speed ch.smoothed smoothingFactor
    if sm < MIN_SPEED_THRESHOLD then ({ ch with smoothed := sm }, .release)
    else if now - ch.lastSoundTime < 100 then ({ ch with smoothed := sm }, .skip)
    else ({ smoothed := sm, lastSoundTime := now },
          .play (80 + sm * 25) (min (sm * 12 - 28) 0))

/-- DynamicAudioEngine.updateZoomSound (audioEngine.ts lines 371-394).  The
frequency is computed from the zoomLevel argument, not from the smoothed
speed. -/
def updateZoomSound (enabled : Bool) (now speed zoomLevel : ℚ)
    (ch : SoundChannel) : SoundChannel × SynthAction :=
  if !enabled then (ch, .skip)
  else
    let sm := smoothValue speed ch.smoothed smoothingFactor
    if sm < MIN_SPEED_THRESHOLD then ({ ch with smoothed := sm }, .release)
    else if now - ch.lastSoundTime < 100 then ({ ch with smoothed := sm }, .skip)
    else ({ smoothed := sm, lastSoundTime := now },
          .play (150 + zoomLevel * 40) (min (sm * 15 - 25) 0))

/-- A status report sent through onStatusUpdate: the text and the CSS class
name ("error" marks an error status). -/
structure RecStatus where
  text : String
  className : String
deriving DecidableEq, Repr

/-- The observable outcome of VideoRecorder.handleRecordingStop: the status
reported, the downloadable file artifacts created (each is the list of
chunks assembled into its blob), and the chunk buffer afterwards. -/
structure StopResult where
  status : RecStatus
  downloads : List (List ℕ)
  recordedChunks : List ℕ
deriving DecidableEq, Repr

/-- VideoRecorder.handleRecordingStop (part_000 lines 345-369).  Chunks are
modelled as abstract blobs (natural numbers).  With no chunks an error
status is reported and nothing else happens; otherwise one blob is
assembled from all chunks, downloaded once, and the buffer is cleared. -/
def handleRecordingStop (recordedChunks : List ℕ) : StopResult :=
  if recordedChunks.length = 0 then
    { status := ⟨"No recording data available", "error"⟩
      downloads := []
      recordedChunks := recordedChunks }
  else
    { status := ⟨"Recording saved", ""⟩
      downloads := [recordedChunks]
      recordedChunks := [] }

/-- The session-level mutable state stopCamera touches (README lines
749-816), together with the animation-loop variables: currentRotation is
the Euler the animate function lerps and copies onto the group each
frame. -/
structure MainState where
  isInitialized : Bool
  isHandControlled : Bool
  detectionLoopRunning : Bool
  audioEnabled : Bool
  targetPan : Vec3
  targetRotation : Vec3
  targetZoom : ℚ
  currentZoom : ℚ
  previousPan : Vec3
  previousRotation : Vec3
  previousZoom : ℚ
  currentRotation : Vec3
  cubeGroupPosition : Vec3
  cubeGroupRotation : Vec3
  cubeGroupScale : Vec3
deriving DecidableEq, Repr

/-- stopCamera (README lines 749-816), restricted to its effect on the
session state (recorder, DOM and media-stream teardown omitted).  Lines
792-804 reset the flags, the targets, currentZoom, the previous values and
the group transform; the currentRotation variable is not among the fields
the source resets. -/
def stopCamera (s : MainState) : MainState :=
  if !s.isInitialized then s
  else
    { s with
      detectionLoopRunning := false
      audioEnabled := false
      isInitialized := false
      isHandControlled := false
      targetPan := Vec3.zero
      targetRotation := Vec3.zero
      targetZoom := 1
      currentZoom := 1
      previousPan := Vec3.zero
      previousRotation := Vec3.zero
      previousZoom := 1
      cubeGroupPosition := Vec3.zero
      cubeGroupRotation := Vec3.zero
      cubeGroupScale := ⟨1, 1, 1⟩ }

/-- A hand whose wrist is at w (thumb and index tip at the origin); used to
build frame inputs in which only the wrist matters. -/
def mkHand (w : Vec3) : Hand := ⟨w, Vec3.zero, Vec3.zero⟩

/-- The componentwise average of a list of vectors (sum divided by
length). -/
def avgV (l : List Vec3) : Vec3 :=
  ⟨(l.map Vec3.x).sum / (l.length : ℚ),
   (l.map Vec3.y).sum / (l.length : ℚ),
   (l.map Vec3.z).sum / (l.length : ℚ)⟩

/-- Nine two-hand frames with the rotation wrist at (1, 0, 0) and the zoom
wrist at (2, 0, 0); a concrete warm-up prefix. -/
def c3wPairs : List (Vec3 × Vec3) := List.replicate 9 (⟨1, 0, 0⟩, ⟨2, 0, 0⟩)

/-- The tenth two-hand frame: the zoom wrist jumps to (100, 0, 0). -/
def c3wLast : Vec3 × Vec3 := (⟨1, 0, 0⟩, ⟨100, 0, 0⟩)

/-- Four frames: the rotation hand alone for two frames, then the zoom hand
appears at wrist (4, 0, 0) and next shows wrist (0, 0, 0). -/
def c3Inputs : List FrameInput :=
  [⟨[mkHand Vec3.zero], []⟩, ⟨[mkHand Vec3.zero], []⟩,
   ⟨[mkHand Vec3.zero, mkHand ⟨4, 0, 0⟩], []⟩,
   ⟨[mkHand Vec3.zero, mkHand Vec3.zero], []⟩]

/-- A state in which a session is active and every transform variable holds
a non-neutral value; a concrete input for the session-stop theorems. -/
def c9PreState : MainState :=
  { isInitialized := true
    isHandControlled := true
    detectionLoopRunning := true
    audioEnabled := true
    targetPan := ⟨4, 5, 6⟩
    targetRotation := ⟨4, 5, 6⟩
    targetZoom := 3
    currentZoom := 3
    previousPan := ⟨4, 5, 6⟩
    previousRotation := ⟨4, 5, 6⟩
    previousZoom := 3
    currentRotation := ⟨1, 2, 3⟩
    cubeGroupPosition := ⟨4, 5, 6⟩
    cubeGroupRotation := ⟨4, 5, 6⟩
    cubeGroupScale := ⟨3, 3, 3⟩ }

/-- The wrist of the hand processHandResults selects as the rotation hand
for a frame. -/
def rotWristOf (f : FrameInput) : Vec3 :=
  (f.landmarks.getD
    (selectHands f.landmarks.length f.handednesses).1.toNat default).wrist

/-- A frame showing two hands without handedness labels: the first drives
rotation, the second zoom. -/
def twoHandFrame (p : Vec3 × Vec3) : FrameInput :=
  ⟨[mkHand p.1, mkHand p.2], []⟩

/-- On a frame with at least one hand, the hand0 calibration, the frame
counter and the hand0 offset written by processHandResults are exactly the
outputs of the rotation-hand calibration step on the selected wrist. -/
theorem processHandResults_rotation_fields (sqrt : ℚ → ℚ) (piQ : ℚ)
    (s : GestureState) (f : FrameInput) (h : ¬ f.landmarks.length = 0) :
    (processHandResults sqrt piQ s f).hand0Calibration =
      (rotCalibStep s.hand0Calibration s.calibrationFrames (rotWristOf f)).1 ∧
    (processHandResults sqrt piQ s f).calibrationFrames =
      (rotCalibStep s.hand0Calibration s.calibrationFrames (rotWristOf f)).2.1 ∧
    (processHandResults sqrt piQ s f).hand0Position =
      (rotCalibStep s.hand0Calibration s.calibrationFrames (rotWristOf f)).2.2 := by
  simp only [processHandResults, if_neg h]
  split
  · exact ⟨rfl, rfl, rfl⟩
  · exact ⟨rfl, rfl, rfl⟩

/-- On a two-hand frame, the calibration fields written by
processHandResults: hand0 from the rotation-hand step on the first wrist,
hand1 from the zoom-hand step on the second wrist at the already
incremented shared counter. -/
theorem processHandResults_twoHand_fields (sqrt : ℚ → ℚ) (piQ : ℚ)
    (s : GestureState) (p : Vec3 × Vec3) :
    (processHandResults sqrt piQ s (twoHandFrame p)).hand0Calibration =
      (rotCalibStep s.hand0Calibration s.calibrationFrames p.1).1 ∧
    (processHandResults sqrt piQ s (twoHandFrame p)).calibrationFrames =
      (rotCalibStep s.hand0Calibration s.calibrationFrames p.1).2.1 ∧
    (processHandResults sqrt piQ s (twoHandFrame p)).hand1Calibration =
      (zoomCalibStep s.hand1Calibration
        (rotCalibStep s.hand0Calibration s.calibrationFrames p.1).2.1 p.2).1 :=
  ⟨rfl, rfl, rfl⟩

/-- Seeding the rotation-hand calibration: a null anchor takes the wrist
and the counter becomes 1, whatever it was. -/
theorem rotCalibStep_seed (frames : ℕ) (w : Vec3) :
    rotCalibStep none frames w = (some w, 1, Vec3.zero) := rfl

/-- Seeding the zoom-hand calibration: a null anchor takes the wrist and
the shared counter is untouched. -/
theorem zoomCalibStep_seed (frames : ℕ) (w : Vec3) :
    zoomCalibStep none frames w = (some w, Vec3.zero) := rfl

/-- A rotation-hand calibration step strictly inside warm-up (the counter
stays below 10 after incrementing): the counter advances, the offset is
zero, and the anchor remains established. -/
theorem rotCalibStep_warming (c : Vec3) (k : ℕ) (w : Vec3)
    (hk : k + 1 < CALIBRATION_FRAME_COUNT) :
    (rotCalibStep (some c) k w).2.1 = k + 1 ∧
    (rotCalibStep (some c) k w).2.2 = Vec3.zero ∧
    ∃ c2, (rotCalibStep (some c) k w).1 = some c2 := by
  have h1 : k < CALIBRATION_FRAME_COUNT := by omega
  have h2 : ¬ CALIBRATION_FRAME_COUNT ≤ k + 1 := by omega
  simp only [rotCalibStep, if_pos h1, if_neg h2]
  exact ⟨by trivial, by trivial, ⟨_, rfl⟩⟩

/-- A rotation-hand calibration step after warm-up: the anchor and counter
are unchanged and the offset is the scaled difference from the anchor. -/
theorem rotCalibStep_done (c : Vec3) (k : ℕ) (w : Vec3)
    (hk : CALIBRATION_FRAME_COUNT ≤ k) :
    rotCalibStep (some c) k w =
      (some c, k, ⟨(w.x - c.x) * 10, (c.y - w.y) * 10, (w.z - c.z) * 5⟩) := by
  have h1 : ¬ k < CALIBRATION_FRAME_COUNT := by omega
  simp only [rotCalibStep, if_neg h1, if_pos hk]

/-- A zoom-hand calibration step once the shared counter has reached 10:
the anchor is unchanged. -/
theorem zoomCalibStep_stable (c : Vec3) (frames : ℕ) (w : Vec3)
    (h : ¬ frames < CALIBRATION_FRAME_COUNT) :
    (zoomCalibStep (some c) frames w).1 = some c := by
  simp only [zoomCalibStep, if_neg h]
  split
  · rfl
  · rfl

/-- One running-average update on a component: with the previous average of
a sum over k samples, absorbing one more sample gives the sum over k + 1
samples. -/
theorem runAvg_component (sum a : ℚ) (k : ℕ) (hk : k ≠ 0) :
    (sum / (k : ℚ) * ((((k + 1 : ℕ)) : ℚ) - 1) + a) / (((k + 1 : ℕ)) : ℚ) =
      (sum + a) / (((k + 1 : ℕ)) : ℚ) := by
  have hq : ((k : ℚ)) ≠ 0 := Nat.cast_ne_zero.mpr hk
  push_cast
  rw [add_sub_cancel_right, div_mul_cancel₀ _ hq]

/-- Absorbing one constant sample leaves the component unchanged. -/
theorem constAvg_component (a : ℚ) (k : ℕ) :
    (a * ((((k + 1 : ℕ)) : ℚ) - 1) + a) / (((k + 1 : ℕ)) : ℚ) = a := by
  have hq : ((((k + 1 : ℕ)) : ℚ)) ≠ 0 := by positivity
  push_cast at hq ⊢
  field_simp
  ring

/-- The average of a one-element list is its element. -/
theorem avgV_singleton (v : Vec3) : avgV [v] = v := by
  simp [avgV]

/-- The update expression of the calibration steps turns the average over
pre into the average over pre ++ [w]. -/
theorem avgV_absorb (pre : List Vec3) (w : Vec3) (h : pre.length ≠ 0) :
    (⟨((avgV pre).x * ((((pre.length + 1 : ℕ)) : ℚ) - 1) + w.x) /
        (((pre.length + 1 : ℕ)) : ℚ),
      ((avgV pre).y * ((((pre.length + 1 : ℕ)) : ℚ) - 1) + w.y) /
        (((pre.length + 1 : ℕ)) : ℚ),
      ((avgV pre).z * ((((pre.length + 1 : ℕ)) : ℚ) - 1) + w.z) /
        (((pre.length + 1 : ℕ)) : ℚ)⟩ : Vec3) = avgV (pre ++ [w]) := by
  unfold avgV
  simp only [List.map_append, List.sum_append, List.map_cons, List.map_nil,
    List.sum_cons, List.sum_nil, List.length_append, List.length_cons,
    List.length_nil, add_zero, zero_add]
  refine Vec3.mk.injEq _ _ _ _ _ _ ▸ ?_
  exact ⟨runAvg_component _ _ _ h, runAvg_component _ _ _ h,
    runAvg_component _ _ _ h⟩

/-- A rotation-hand calibration step during warm-up from the average over
pre: the anchor becomes the average over pre ++ [w] and the counter
advances. -/
theorem rotCalibStep_avg (pre : List Vec3) (w : Vec3) (k : ℕ)
    (hk : k = pre.length)
    (h1 : pre.length ≠ 0) (h2 : pre.length < CALIBRATION_FRAME_COUNT) :
    (rotCalibStep (some (avgV pre)) k w).1 =
      some (avgV (pre ++ [w])) ∧
    (rotCalibStep (some (avgV pre)) k w).2.1 = pre.length + 1 := by
  subst hk
  simp only [rotCalibStep, if_pos h2]
  constructor
  · split
    · exact congrArg some (avgV_absorb pre w h1)
    · exact congrArg some (avgV_absorb pre w h1)
  · split
    · rfl
    · rfl

/-- A zoom-hand calibration step during warm-up: reading the shared counter
pre.length + 1, the anchor over pre absorbs w. -/
theorem zoomCalibStep_avg (pre : List Vec3) (w : Vec3) (k : ℕ)
    (hk : k = pre.length + 1)
    (h1 : pre.length ≠ 0) (h2 : pre.length + 1 < CALIBRATION_FRAME_COUNT) :
    (zoomCalibStep (some (avgV pre)) k w).1 =
      some (avgV (pre ++ [w])) := by
  subst hk
  simp only [zoomCalibStep, if_pos h2]
  split
  · exact congrArg some (avgV_absorb pre w h1)
  · exact congrArg some (avgV_absorb pre w h1)

/-- A rotation-hand calibration step at constant wrist P keeps the anchor
at P; the counter advances while below 10 and then stays. -/
theorem rotCalibStep_const (P : Vec3) (k : ℕ) :
    (rotCalibStep (some P) k P).1 = some P ∧
    (rotCalibStep (some P) k P).2.1 =
      (if k < CALIBRATION_FRAME_COUNT then k + 1 else k) := by
  by_cases hk : k < CALIBRATION_FRAME_COUNT
  · have hP : (⟨(P.x * ((((k + 1 : ℕ)) : ℚ) - 1) + P.x) / (((k + 1 : ℕ)) : ℚ),
        (P.y * ((((k + 1 : ℕ)) : ℚ) - 1) + P.y) / (((k + 1 : ℕ)) : ℚ),
        (P.z * ((((k + 1 : ℕ)) : ℚ) - 1) + P.z) / (((k + 1 : ℕ)) : ℚ)⟩ : Vec3)
        = P := by
      refine Vec3.mk.injEq _ _ _ _ _ _ ▸ ?_
      exact ⟨constAvg_component _ _, constAvg_component _ _,
        constAvg_component _ _⟩
    simp only [rotCalibStep, if_pos hk]
    constructor
    · split
      · exact congrArg some hP
      · exact congrArg some hP
    · split
      · rfl
      · rfl
  · have hk2 : CALIBRATION_FRAME_COUNT ≤ k := by omega
    simp only [rotCalibStep, if_neg hk, if_pos hk2]
    exact ⟨by trivial, by trivial⟩

/-- C1: evaluating detectSceneSide at scene rotation (0, 0, 0) and camera
view direction (0, 0, -1) — assuming only cos 0 = 1 and sin 0 = 0 — yields
"back", not the "front" the specification requires: maximizing the dot
product with the view direction selects the side facing away from the
camera, contradicting the comment "most facing camera" in the source. -/
theorem c1_detectSceneSide_identity_back (cosQ sinQ : ℚ → ℚ)
    (hc : cosQ 0 = 1) (hs : sinQ 0 = 0) :
    detectSceneSide cosQ sinQ ⟨0, 0, 0⟩ ⟨0, 0, -1⟩ = "back" := by
  simp only [detectSceneSide, sideVectors, applyEuler, rotAxisX, rotAxisY,
    rotAxisZ, dot, hc, hs, List.map_cons, List.map_nil]
  norm_num [List.foldl_cons, List.foldl_nil, sideStep, dot]

/-- C1 witness: the hypotheses cos 0 = 1 and sin 0 = 0 hold at the constant
interpretations, and the detected side is "back". -/
theorem c1_witness :
    detectSceneSide (fun _ => 1) (fun _ => 0) ⟨0, 0, 0⟩ ⟨0, 0, -1⟩ = "back" :=
  c1_detectSceneSide_identity_back (fun _ => 1) (fun _ => 0) rfl rfl

/-- A fold of sideStep leaves the accumulated side name either unchanged or
equal to one of the folded sides. -/
theorem sideStep_foldl_fst_mem (cameraDirection : Vec3)
    (l : List (String × Vec3)) (acc : String × Option ℚ) :
    (l.foldl (sideStep cameraDirection) acc).1 = acc.1 ∨
      (l.foldl (sideStep cameraDirection) acc).1 ∈ l.map Prod.fst := by
  induction l generalizing acc with
  | nil => exact Or.inl rfl
  | cons p t ih =>
      rw [List.foldl_cons]
      have hstep : (sideStep cameraDirection acc p).1 = acc.1 ∨
          (sideStep cameraDirection acc p).1 = p.1 := by
        rcases acc with ⟨s, mo⟩
        cases mo with
        | none => exact Or.inr rfl
        | some m =>
            simp only [sideStep]
            split <;> simp
      rcases ih (sideStep cameraDirection acc p) with h | h
      · rcases hstep with h2 | h2
        · exact Or.inl (h.trans h2)
        · refine Or.inr ?_
          rw [List.map_cons, h.trans h2]
          exact List.mem_cons_self _ _
      · refine Or.inr ?_
        rw [List.map_cons]
        exact List.mem_cons_of_mem _ h

/-- C10: for every rotation and camera direction (and every interpretation
of cos and sin), detectSceneSide returns one of the six axis side names;
the "center" fallback is unreachable because the first of the six dot
products always beats the -Infinity the running maximum starts at. -/
theorem c10_detectSceneSide_never_center (cosQ sinQ : ℚ → ℚ)
    (rotation cameraDirection : Vec3) :
    detectSceneSide cosQ sinQ rotation cameraDirection ∈
      (["front", "back", "left", "right", "top", "bottom"] : List String) := by
  unfold detectSceneSide sideVectors
  simp only [List.map_cons, List.map_nil]
  rw [List.foldl_cons]
  have hfirst : sideStep cameraDirection ("center", none)
      ("front", applyEuler cosQ sinQ rotation ⟨0, 0, 1⟩) =
      ("front", some (dot (applyEuler cosQ sinQ rotation ⟨0, 0, 1⟩)
        cameraDirection)) := rfl
  rw [hfirst]
  rcases sideStep_foldl_fst_mem cameraDirection
      [("back", applyEuler cosQ sinQ rotation ⟨0, 0, -1⟩),
       ("left", applyEuler cosQ sinQ rotation ⟨-1, 0, 0⟩),
       ("right", applyEuler cosQ sinQ rotation ⟨1, 0, 0⟩),
       ("top", applyEuler cosQ sinQ rotation ⟨0, 1, 0⟩),
       ("bottom", applyEuler cosQ sinQ rotation ⟨0, -1, 0⟩)]
      ("front", some (dot (applyEuler cosQ sinQ rotation ⟨0, 0, 1⟩)
        cameraDirection)) with h | h
  · rw [h]; simp
  · simp only [List.map_cons, List.map_nil, List.mem_cons,
      List.mem_singleton] at h
    simp only [List.mem_cons, List.mem_singleton]
    tauto

/-- C5: whenever a zoom hand is present (its selected index is in range),
the zoom target written by processHandResults is exactly
baseZoom + pinchDistance * pinchScale = 0.5 + distance * 12.5, the distance
being between the zoom hand thumb tip and index fingertip; and for fixed
constants this unclamped mapping is monotonically non-decreasing in the
pinch distance. -/
theorem c5_zoom_target_formula_and_monotone (sqrt : ℚ → ℚ) (piQ : ℚ) :
    (∀ (s : GestureState) (f : FrameInput),
      0 ≤ (selectHands f.landmarks.length f.handednesses).2 →
      (selectHands f.landmarks.length f.handednesses).2 <
          (f.landmarks.length : Int) →
      (processHandResults sqrt piQ s f).targetZoom =
        baseZoom +
          pinchDistance sqrt
            (f.landmarks.getD
              (selectHands f.landmarks.length f.handednesses).2.toNat default) *
          pinchScale) ∧
    (∀ d1 d2 : ℚ, d1 ≤ d2 →
      baseZoom + d1 * pinchScale ≤ baseZoom + d2 * pinchScale) := by
  constructor
  · intro s f h1 h2
    have hpos : (0 : Int) < (f.landmarks.length : Int) := lt_of_le_of_lt h1 h2
    have hne : ¬ f.landmarks.length = 0 := by
      intro h0
      rw [h0] at hpos
      exact absurd hpos (by norm_num)
    simp only [processHandResults, if_neg hne, if_pos (And.intro h1 h2)]
  · intro d1 d2 h
    have : d1 * pinchScale ≤ d2 * pinchScale := by
      have hp : (0 : ℚ) ≤ pinchScale := by norm_num [pinchScale]
      exact mul_le_mul_of_nonneg_right h hp
    linarith

/-- C5 witness: a concrete two-hand frame in which the zoom hand is hand 1;
its pinch distance under the identity interpretation of sqrt is 4, and the
zoom target is 0.5 + 4 * 12.5 = 50.5; monotonicity at 0 ≤ 1. -/
theorem c5_witness :
    (processHandResults (fun q => q) 0 initGestureState
        ⟨[mkHand Vec3.zero, ⟨Vec3.zero, ⟨2, 0, 0⟩, Vec3.zero⟩], []⟩).targetZoom =
      baseZoom + 4 * pinchScale ∧
    baseZoom + 0 * pinchScale ≤ baseZoom + 1 * pinchScale := by
  constructor
  · have h := (c5_zoom_target_formula_and_monotone (fun q => q) 0).1
      initGestureState
      ⟨[mkHand Vec3.zero, ⟨Vec3.zero, ⟨2, 0, 0⟩, Vec3.zero⟩], []⟩
      (by decide) (by decide)
    rw [h]
    show baseZoom +
        pinchDistance (fun q => q) (⟨Vec3.zero, ⟨2, 0, 0⟩, Vec3.zero⟩ : Hand) *
          pinchScale =
      baseZoom + 4 * pinchScale
    norm_num [pinchDistance, Vec3.zero]
  · exact (c5_zoom_target_formula_and_monotone (fun q => q) 0).2 0 1 (by norm_num)

/-- C6: a frame with zero landmarks resets the transform targets to neutral
(pan (0,0,0), rotation (0,0,0), zoom 1), clears both calibration anchors,
and zeroes the calibration frame counter; the next frame in which a hand is
present then restarts warm-up with the counter at 1. -/
theorem c6_no_hands_resets_state (sqrt : ℚ → ℚ) (piQ : ℚ) (s : GestureState)
    (f g : FrameInput) (hf : f.landmarks = []) (hg : g.landmarks ≠ []) :
    (processHandResults sqrt piQ s f).targetPan = Vec3.zero ∧
    (processHandResults sqrt piQ s f).targetRotation = Vec3.zero ∧
    (processHandResults sqrt piQ s f).targetZoom = 1 ∧
    (processHandResults sqrt piQ s f).hand0Calibration = none ∧
    (processHandResults sqrt piQ s f).hand1Calibration = none ∧
    (processHandResults sqrt piQ s f).calibrationFrames = 0 ∧
    (processHandResults sqrt piQ (processHandResults sqrt piQ s f) g).calibrationFrames
      = 1 := by
  have h0 : f.landmarks.length = 0 := by simp [hf]
  have hg0 : ¬ g.landmarks.length = 0 := by
    simpa [List.length_eq_zero] using hg
  refine ⟨?_, ?_, ?_, ?_, ?_, ?_, ?_⟩ <;>
    simp only [processHandResults, if_pos h0, if_neg hg0, rotCalibStep]
  split <;> rfl

/-- C6 witness: the reset and the warm-up restart at a concrete state and
concrete frames. -/
theorem c6_witness :
    (processHandResults (fun q => q) 0 initGestureState ⟨[], []⟩).targetPan
        = Vec3.zero ∧
    (processHandResults (fun q => q) 0 initGestureState ⟨[], []⟩).targetRotation
        = Vec3.zero ∧
    (processHandResults (fun q => q) 0 initGestureState ⟨[], []⟩).targetZoom = 1 ∧
    (processHandResults (fun q => q) 0 initGestureState
        ⟨[], []⟩).hand0Calibration = none ∧
    (processHandResults (fun q => q) 0 initGestureState
        ⟨[], []⟩).hand1Calibration = none ∧
    (processHandResults (fun q => q) 0 initGestureState
        ⟨[], []⟩).calibrationFrames = 0 ∧
    (processHandResults (fun q => q) 0
        (processHandResults (fun q => q) 0 initGestureState ⟨[], []⟩)
        ⟨[mkHand ⟨1, 1, 1⟩], []⟩).calibrationFrames = 1 :=
  c6_no_hands_resets_state (fun q => q) 0 initGestureState ⟨[], []⟩
    ⟨[mkHand ⟨1, 1, 1⟩], []⟩ rfl (by decide)

/-- C7 counterexample: two zoom-channel updates from the same channel state
and the same raw speed (so the same smoothed speed) but different zoom
levels trigger different pitches (150 vs 190), so the zoom pitch is not a
function of the smoothed zoom speed, let alone a linear one. -/
theorem c7_counterexample :
    (updateZoomSound true 1000 1 0 ⟨0, 0⟩).1.smoothed =
      (updateZoomSound true 1000 1 1 ⟨0, 0⟩).1.smoothed ∧
    (updateZoomSound true 1000 1 0 ⟨0, 0⟩).2 =
      SynthAction.play 150 (-91 / 4) ∧
    (updateZoomSound true 1000 1 1 ⟨0, 0⟩).2 =
      SynthAction.play 190 (-91 / 4) ∧
    (150 : ℚ) ≠ 190 := by
  refine ⟨?_, ?_, ?_, by norm_num⟩ <;>
    norm_num [updateZoomSound, smoothValue, smoothingFactor,
      MIN_SPEED_THRESHOLD, min_def]

/-- C7 amended: whenever a channel plays, the rotation pitch is the linear
function 220 + 80 * s of the smoothed rotation speed s, the pan pitch is
80 + 25 * s of the smoothed pan speed, while the zoom pitch is the linear
function 150 + 40 * zoomLevel of the current zoom level (not of the
smoothed zoom speed); each channel volume is the linear expression in its
smoothed speed clipped at 0 dB and hence never exceeds 0. -/
theorem c7_amended_pitch_and_volume :
    (∀ (enabled : Bool) (now speed f v : ℚ) (ch : SoundChannel),
      (updateRotationSound enabled now speed ch).2 = SynthAction.play f v →
      f = 220 + smoothValue speed ch.smoothed smoothingFactor * 80 ∧
      v = min (smoothValue speed ch.smoothed smoothingFactor * 15 - 25) 0 ∧
      v ≤ 0) ∧
    (∀ (enabled : Bool) (now speed f v : ℚ) (ch : SoundChannel),
      (updatePanSound enabled now speed ch).2 = SynthAction.play f v →
      f = 80 + smoothValue speed ch.smoothed smoothingFactor * 25 ∧
      v = min (smoothValue speed ch.smoothed smoothingFactor * 12 - 28) 0 ∧
      v ≤ 0) ∧
    (∀ (enabled : Bool) (now speed zoomLevel f v : ℚ) (ch : SoundChannel),
      (updateZoomSound enabled now speed zoomLevel ch).2 = SynthAction.play f v →
      f = 150 + zoomLevel * 40 ∧
      v = min (smoothValue speed ch.smoothed smoothingFactor * 15 - 25) 0 ∧
      v ≤ 0) := by
  refine ⟨?_, ?_, ?_⟩
  · intro enabled now speed f v ch h
    simp only [updateRotationSound] at h
    split_ifs at h
    simp only [SynthAction.play.injEq] at h
    exact ⟨h.1.symm, h.2.symm, h.2 ▸ min_le_right _ 0⟩
  · intro enabled now speed f v ch h
    simp only [updatePanSound] at h
    split_ifs at h
    simp only [SynthAction.play.injEq] at h
    exact ⟨h.1.symm, h.2.symm, h.2 ▸ min_le_right _ 0⟩
  · intro enabled now speed zoomLevel f v ch h
    simp only [updateZoomSound] at h
    split_ifs at h
    simp only [SynthAction.play.injEq] at h
    exact ⟨h.1.symm, h.2.symm, h.2 ▸ min_le_right _ 0⟩

/-- C8: stopping with zero captured chunks reports an error status and
creates no file; stopping with at least one chunk produces exactly one
downloadable artifact and clears the chunk buffer. -/
theorem c8_recording_stop (chunks : List ℕ) :
    (chunks = [] →
      (handleRecordingStop chunks).status.className = "error" ∧
      (handleRecordingStop chunks).downloads = []) ∧
    (chunks ≠ [] →
      (handleRecordingStop chunks).downloads.length = 1 ∧
      (handleRecordingStop chunks).recordedChunks = []) := by
  constructor
  · intro h
    subst h
    exact ⟨rfl, rfl⟩
  · intro h
    have : ¬ chunks.length = 0 := by simpa [List.length_eq_zero] using h
    simp [handleRecordingStop, this]

/-- C9 counterexample: stopping the session from a state whose animation
rotation is (1, 2, 3) leaves currentRotation at (1, 2, 3): the source
resets the targets, currentZoom, the previous values and the group
transform, but not the currentRotation Euler the animation loop uses. -/
theorem c9_counterexample :
    (stopCamera c9PreState).currentRotation = ⟨1, 2, 3⟩ ∧
    (⟨1, 2, 3⟩ : Vec3) ≠ Vec3.zero := by decide

/-- C9 amended: on session stop the transform targets, the current zoom,
the previous-frame values and the scene-group transform are all reset to
identity and the session flags cleared, but the currentRotation variable of
the animation loop keeps its previous value. -/
theorem c9_stop_resets_except_current_rotation (s : MainState)
    (h : s.isInitialized = true) :
    (stopCamera s).targetPan = Vec3.zero ∧
    (stopCamera s).targetRotation = Vec3.zero ∧
    (stopCamera s).targetZoom = 1 ∧
    (stopCamera s).currentZoom = 1 ∧
    (stopCamera s).previousPan = Vec3.zero ∧
    (stopCamera s).previousRotation = Vec3.zero ∧
    (stopCamera s).previousZoom = 1 ∧
    (stopCamera s).cubeGroupPosition = Vec3.zero ∧
    (stopCamera s).cubeGroupRotation = Vec3.zero ∧
    (stopCamera s).cubeGroupScale = ⟨1, 1, 1⟩ ∧
    (stopCamera s).isInitialized = false ∧
    (stopCamera s).isHandControlled = false ∧
    (stopCamera s).currentRotation = s.currentRotation := by
  simp [stopCamera, h]

/-- C9 witness: the amended reset behaviour at the concrete active state. -/
theorem c9_witness :
    (stopCamera c9PreState).targetPan = Vec3.zero ∧
    (stopCamera c9PreState).targetRotation = Vec3.zero ∧
    (stopCamera c9PreState).targetZoom = 1 ∧
    (stopCamera c9PreState).currentZoom = 1 ∧
    (stopCamera c9PreState).previousPan = Vec3.zero ∧
    (stopCamera c9PreState).previousRotation = Vec3.zero ∧
    (stopCamera c9PreState).previousZoom = 1 ∧
    (stopCamera c9PreState).cubeGroupPosition = Vec3.zero ∧
    (stopCamera c9PreState).cubeGroupRotation = Vec3.zero ∧
    (stopCamera c9PreState).cubeGroupScale = ⟨1, 1, 1⟩ ∧
    (stopCamera c9PreState).isInitialized = false ∧
    (stopCamera c9PreState).isHandControlled = false ∧
    (stopCamera c9PreState).currentRotation = c9PreState.currentRotation :=
  c9_stop_resets_except_current_rotation c9PreState rfl

/-- While warm-up is in progress (anchor established, counter and remaining
frames summing below 10), every processed frame leaves the hand0 offset at
zero. -/
theorem runFrames_warmup (sqrt : ℚ → ℚ) (piQ : ℚ) (inputs : List FrameInput) :
    ∀ (s : GestureState) (c : Vec3),
      (∀ f ∈ inputs, f.landmarks ≠ []) →
      s.hand0Calibration = some c →
      s.hand0Position = Vec3.zero →
      s.calibrationFrames + inputs.length < CALIBRATION_FRAME_COUNT →
      (runFrames sqrt piQ s inputs).hand0Position = Vec3.zero := by
  induction inputs with
  | nil =>
      intro s c _ _ hp _
      exact hp
  | cons f t ih =>
      intro s c hne hc hp hsum
      rw [List.length_cons] at hsum
      have hfne : ¬ f.landmarks.length = 0 := by
        simpa [List.length_eq_zero] using hne f (List.mem_cons_self f t)
      have hfields := processHandResults_rotation_fields sqrt piQ s f hfne
      rw [hc] at hfields
      have hwarm := rotCalibStep_warming c s.calibrationFrames (rotWristOf f)
        (by omega)
      obtain ⟨c2, hc2⟩ := hwarm.2.2
      have hrun : runFrames sqrt piQ s (f :: t) =
          runFrames sqrt piQ (processHandResults sqrt piQ s f) t := by
        simp [runFrames]
      rw [hrun]
      refine ih (processHandResults sqrt piQ s f) c2 ?_ ?_ ?_ ?_
      · intro g hg
        exact hne g (List.mem_cons_of_mem f hg)
      · rw [hfields.1, hc2]
      · rw [hfields.2.2, hwarm.2.1]
      · rw [hfields.2.1, hwarm.1]
        omega

/-- C2: starting from a cleared calibration (anchor null, as after a reset
or before any hand appeared), processing fewer than 10 frames that all show
a hand leaves the derived rotation-hand offset at exactly (0, 0, 0). -/
theorem c2_warmup_offset_zero (sqrt : ℚ → ℚ) (piQ : ℚ)
    (inputs : List FrameInput) (s : GestureState)
    (hne : ∀ f ∈ inputs, f.landmarks ≠ [])
    (hc : s.hand0Calibration = none)
    (hp : s.hand0Position = Vec3.zero)
    (hlen : inputs.length < 10) :
    (runFrames sqrt piQ s inputs).hand0Position = Vec3.zero := by
  have hCAL : CALIBRATION_FRAME_COUNT = 10 := rfl
  cases inputs with
  | nil => exact hp
  | cons f t =>
      rw [List.length_cons] at hlen
      have hfne : ¬ f.landmarks.length = 0 := by
        simpa [List.length_eq_zero] using hne f (List.mem_cons_self f t)
      have hfields := processHandResults_rotation_fields sqrt piQ s f hfne
      rw [hc, rotCalibStep_seed] at hfields
      have hrun : runFrames sqrt piQ s (f :: t) =
          runFrames sqrt piQ (processHandResults sqrt piQ s f) t := by
        simp [runFrames]
      rw [hrun]
      refine runFrames_warmup sqrt piQ t (processHandResults sqrt piQ s f)
        (rotWristOf f) ?_ ?_ ?_ ?_
      · intro g hg
        exact hne g (List.mem_cons_of_mem f hg)
      · simpa using hfields.1
      · simpa using hfields.2.2
      · have h1 : (processHandResults sqrt piQ s f).calibrationFrames = 1 := by
          simpa using hfields.2.1
        omega

/-- C2 witness: a single-frame calibration sequence from the initial state
leaves the offset at zero. -/
theorem c2_witness :
    (runFrames (fun q => q) 0 initGestureState
        [⟨[mkHand ⟨1, 1, 1⟩], []⟩]).hand0Position = Vec3.zero :=
  c2_warmup_offset_zero (fun q => q) 0 [⟨[mkHand ⟨1, 1, 1⟩], []⟩]
    initGestureState (by decide) rfl rfl (by decide)

/-- A run of one-hand frames whose wrists all sit at P keeps the anchor at
P, the counter advancing until it saturates at 10. -/
theorem runFrames_const_wrist (sqrt : ℚ → ℚ) (piQ : ℚ) (hs : List Hand)
    (P : Vec3) :
    ∀ (s : GestureState),
      (∀ h ∈ hs, h.wrist = P) →
      s.hand0Calibration = some P →
      s.calibrationFrames ≤ CALIBRATION_FRAME_COUNT →
      (runFrames sqrt piQ s (hs.map fun h => ⟨[h], []⟩)).hand0Calibration
          = some P ∧
      (runFrames sqrt piQ s (hs.map fun h => ⟨[h], []⟩)).calibrationFrames
          = min (s.calibrationFrames + hs.length) CALIBRATION_FRAME_COUNT := by
  induction hs with
  | nil =>
      intro s _ hc hk
      refine ⟨hc, ?_⟩
      simp only [List.map_nil, runFrames, List.foldl_nil, List.length_nil]
      omega
  | cons h t ih =>
      intro s hw hc hk
      have hfields := processHandResults_rotation_fields sqrt piQ s
        ⟨[h], []⟩ (by simp)
      have hwr : rotWristOf ⟨[h], []⟩ = h.wrist := rfl
      rw [hwr, hw h (List.mem_cons_self h t), hc] at hfields
      have hconst := rotCalibStep_const P s.calibrationFrames
      have hrun : runFrames sqrt piQ s ((h :: t).map fun h => ⟨[h], []⟩) =
          runFrames sqrt piQ (processHandResults sqrt piQ s ⟨[h], []⟩)
            (t.map fun h => ⟨[h], []⟩) := by
        simp [runFrames]
      rw [hrun]
      have hnext := ih (processHandResults sqrt piQ s ⟨[h], []⟩)
        (fun g hg => hw g (List.mem_cons_of_mem h hg))
        (by rw [hfields.1]; exact hconst.1)
        (by rw [hfields.2.1, hconst.2]; split <;> omega)
      refine ⟨hnext.1, ?_⟩
      rw [hnext.2, hfields.2.1, hconst.2, List.length_cons]
      split <;> omega

/-- C4: after exactly 10 frames in which the tracked hand wrist sits at the
constant position P, the calibration anchor equals P, warm-up is complete,
and a subsequent frame with the wrist still at P derives the offset
(0, 0, 0). -/
theorem c4_constant_wrist (sqrt : ℚ → ℚ) (piQ : ℚ) (P : Vec3)
    (hs : List Hand) (h2 : Hand) (hlen : hs.length = 10)
    (hw : ∀ h ∈ hs, h.wrist = P) (hw2 : h2.wrist = P) :
    (runFrames sqrt piQ initGestureState
        (hs.map fun h => ⟨[h], []⟩)).hand0Calibration = some P ∧
    (runFrames sqrt piQ initGestureState
        (hs.map fun h => ⟨[h], []⟩)).calibrationFrames = 10 ∧
    (processHandResults sqrt piQ
        (runFrames sqrt piQ initGestureState (hs.map fun h => ⟨[h], []⟩))
        ⟨[h2], []⟩).hand0Position = Vec3.zero := by
  have hCAL : CALIBRATION_FRAME_COUNT = 10 := rfl
  cases hs with
  | nil => simp at hlen
  | cons h t =>
      rw [List.length_cons] at hlen
      have hfields := processHandResults_rotation_fields sqrt piQ
        initGestureState ⟨[h], []⟩ (by simp)
      have hwr : rotWristOf ⟨[h], []⟩ = h.wrist := rfl
      rw [hwr, hw h (List.mem_cons_self h t),
        show initGestureState.hand0Calibration = none from rfl,
        rotCalibStep_seed] at hfields
      have hrun : runFrames sqrt piQ initGestureState
          ((h :: t).map fun h => ⟨[h], []⟩) =
          runFrames sqrt piQ
            (processHandResults sqrt piQ initGestureState ⟨[h], []⟩)
            (t.map fun h => ⟨[h], []⟩) := by
        simp [runFrames]
      have hmain := runFrames_const_wrist sqrt piQ t P
        (processHandResults sqrt piQ initGestureState ⟨[h], []⟩)
        (fun g hg => hw g (List.mem_cons_of_mem h hg))
        (by simpa using hfields.1)
        (by have h1 : (processHandResults sqrt piQ initGestureState
              ⟨[h], []⟩).calibrationFrames = 1 := by simpa using hfields.2.1
            omega)
      have h1 : (processHandResults sqrt piQ initGestureState
          ⟨[h], []⟩).calibrationFrames = 1 := by simpa using hfields.2.1
      have hframes : (runFrames sqrt piQ initGestureState
          ((h :: t).map fun h => ⟨[h], []⟩)).calibrationFrames = 10 := by
        rw [hrun, hmain.2, h1]
        omega
      have hanchor : (runFrames sqrt piQ initGestureState
          ((h :: t).map fun h => ⟨[h], []⟩)).hand0Calibration = some P := by
        rw [hrun]
        exact hmain.1
      refine ⟨hanchor, hframes, ?_⟩
      have hfin := processHandResults_rotation_fields sqrt piQ
        (runFrames sqrt piQ initGestureState ((h :: t).map fun h => ⟨[h], []⟩))
        ⟨[h2], []⟩ (by simp)
      have hwr2 : rotWristOf ⟨[h2], []⟩ = h2.wrist := rfl
      rw [hwr2, hw2, hanchor, hframes,
        rotCalibStep_done P 10 P (by omega)] at hfin
      rw [hfin.2.2]
      simp [Vec3.zero]

/-- C4 witness: ten frames at wrist (1, 2, 3) calibrate the anchor to
exactly (1, 2, 3) and the eleventh frame at the same wrist derives a zero
offset. -/
theorem c4_witness :
    (runFrames (fun q => q) 0 initGestureState
        ((List.replicate 10 (mkHand ⟨1, 2, 3⟩)).map
          fun h => ⟨[h], []⟩)).hand0Calibration = some ⟨1, 2, 3⟩ ∧
    (runFrames (fun q => q) 0 initGestureState
        ((List.replicate 10 (mkHand ⟨1, 2, 3⟩)).map
          fun h => ⟨[h], []⟩)).calibrationFrames = 10 ∧
    (processHandResults (fun q => q) 0
        (runFrames (fun q => q) 0 initGestureState
          ((List.replicate 10 (mkHand ⟨1, 2, 3⟩)).map fun h => ⟨[h], []⟩))
        ⟨[mkHand ⟨1, 2, 3⟩], []⟩).hand0Position = Vec3.zero :=
  c4_constant_wrist (fun q => q) 0 ⟨1, 2, 3⟩
    (List.replicate 10 (mkHand ⟨1, 2, 3⟩)) (mkHand ⟨1, 2, 3⟩)
    (by decide) (by decide) rfl

/-- While the shared counter stays below 10 by at least one frame, a run of
two-hand frames keeps both anchors equal to the running averages of their
own absorbed samples; pre0 and pre1 are the samples absorbed so far. -/
theorem runFrames_twoHands_avg (sqrt : ℚ → ℚ) (piQ : ℚ)
    (ws : List (Vec3 × Vec3)) :
    ∀ (s : GestureState) (pre0 pre1 : List Vec3),
      s.hand0Calibration = some (avgV pre0) →
      s.hand1Calibration = some (avgV pre1) →
      s.calibrationFrames = pre0.length →
      pre1.length = pre0.length →
      pre0.length ≠ 0 →
      pre0.length + ws.length ≤ 9 →
      (runFrames sqrt piQ s (ws.map twoHandFrame)).hand0Calibration =
        some (avgV (pre0 ++ ws.map Prod.fst)) ∧
      (runFrames sqrt piQ s (ws.map twoHandFrame)).hand1Calibration =
        some (avgV (pre1 ++ ws.map Prod.snd)) ∧
      (runFrames sqrt piQ s (ws.map twoHandFrame)).calibrationFrames =
        pre0.length + ws.length := by
  have hCAL : CALIBRATION_FRAME_COUNT = 10 := rfl
  induction ws with
  | nil =>
      intro s pre0 pre1 hc0 hc1 hk _ _ _
      simp only [List.map_nil, runFrames, List.foldl_nil, List.append_nil,
        List.length_nil]
      exact ⟨hc0, hc1, by omega⟩
  | cons p t ih =>
      intro s pre0 pre1 hc0 hc1 hk hlen1 hne0 hsum
      rw [List.length_cons] at hsum
      have hfields := processHandResults_twoHand_fields sqrt piQ s p
      rw [hc0, hc1] at hfields
      have hrot := rotCalibStep_avg pre0 p.1 s.calibrationFrames hk hne0
        (by omega)
      have hzoom := zoomCalibStep_avg pre1 p.2
        (rotCalibStep (some (avgV pre0)) s.calibrationFrames p.1).2.1
        (by rw [hrot.2]; omega) (by omega) (by omega)
      have hrun : runFrames sqrt piQ s ((p :: t).map twoHandFrame) =
          runFrames sqrt piQ (processHandResults sqrt piQ s (twoHandFrame p))
            (t.map twoHandFrame) := by
        simp [runFrames]
      rw [hrun]
      have hnext := ih (processHandResults sqrt piQ s (twoHandFrame p))
        (pre0 ++ [p.1]) (pre1 ++ [p.2])
        (by rw [hfields.1]; exact hrot.1)
        (by rw [hfields.2.2]; exact hzoom)
        (by rw [hfields.2.1, hrot.2]; simp)
        (by simp [hlen1])
        (by simp)
        (by simp only [List.length_append, List.length_cons, List.length_nil]
            omega)
      refine ⟨?_, ?_, ?_⟩
      · rw [hnext.1, List.map_cons]
        congr 2
        simp
      · rw [hnext.2.1, List.map_cons]
        congr 2
        simp
      · rw [hnext.2.2]
        simp only [List.length_append, List.length_cons, List.length_nil]
        omega

/-- C3 amended: when both hands appear together and stay for the 10
warm-up frames, the rotation-hand anchor ends as the running average of all
10 of its wrist samples, while the zoom-hand anchor — sharing the rotation
hand's frame counter, which is already incremented to 10 before the tenth
zoom update — ends as the running average of only its first 9 samples. -/
theorem c3_amended_anchors (sqrt : ℚ → ℚ) (piQ : ℚ)
    (ws : List (Vec3 × Vec3)) (p : Vec3 × Vec3) (h9 : ws.length = 9) :
    (runFrames sqrt piQ initGestureState
        ((ws ++ [p]).map twoHandFrame)).hand0Calibration =
      some (avgV (ws.map Prod.fst ++ [p.1])) ∧
    (runFrames sqrt piQ initGestureState
        ((ws ++ [p]).map twoHandFrame)).hand1Calibration =
      some (avgV (ws.map Prod.snd)) ∧
    (runFrames sqrt piQ initGestureState
        ((ws ++ [p]).map twoHandFrame)).calibrationFrames = 10 := by
  have hCAL : CALIBRATION_FRAME_COUNT = 10 := rfl
  cases ws with
  | nil => simp at h9
  | cons w t =>
      have ht : t.length = 8 := by
        rw [List.length_cons] at h9
        omega
      have h1 := processHandResults_twoHand_fields sqrt piQ initGestureState w
      rw [show initGestureState.hand0Calibration = none from rfl,
          show initGestureState.hand1Calibration = none from rfl,
          show initGestureState.calibrationFrames = 0 from rfl,
          rotCalibStep_seed] at h1
      have h1c0 : (processHandResults sqrt piQ initGestureState
          (twoHandFrame w)).hand0Calibration = some (avgV [w.1]) := by
        rw [avgV_singleton]
        simpa using h1.1
      have h1k : (processHandResults sqrt piQ initGestureState
          (twoHandFrame w)).calibrationFrames = 1 := by
        simpa using h1.2.1
      have h1c1 : (processHandResults sqrt piQ initGestureState
          (twoHandFrame w)).hand1Calibration = some (avgV [w.2]) := by
        rw [avgV_singleton]
        simpa [zoomCalibStep_seed] using h1.2.2
      have hphase := runFrames_twoHands_avg sqrt piQ t
        (processHandResults sqrt piQ initGestureState (twoHandFrame w))
        [w.1] [w.2] h1c0 h1c1 (by simpa using h1k) (by simp) (by simp)
        (by simp [ht])
      have hrun : runFrames sqrt piQ initGestureState
          (((w :: t) ++ [p]).map twoHandFrame) =
          processHandResults sqrt piQ
            (runFrames sqrt piQ
              (processHandResults sqrt piQ initGestureState (twoHandFrame w))
              (t.map twoHandFrame))
            (twoHandFrame p) := by
        simp only [List.cons_append, List.map_cons, List.map_append,
          List.map_nil, runFrames, List.foldl_cons, List.foldl_append,
          List.foldl_nil]
      rw [hrun]
      set s9 := runFrames sqrt piQ
        (processHandResults sqrt piQ initGestureState (twoHandFrame w))
        (t.map twoHandFrame) with hs9
      have h9c0 : s9.hand0Calibration =
          some (avgV ([w.1] ++ t.map Prod.fst)) := hphase.1
      have h9c1 : s9.hand1Calibration =
          some (avgV ([w.2] ++ t.map Prod.snd)) := hphase.2.1
      have h9k : s9.calibrationFrames = 9 := by
        rw [hphase.2.2]
        simp [ht]
      have hlen0 : ([w.1] ++ t.map Prod.fst).length = 9 := by simp [ht]
      have hfin := processHandResults_twoHand_fields sqrt piQ s9 p
      rw [h9c0, h9c1] at hfin
      have hrot := rotCalibStep_avg ([w.1] ++ t.map Prod.fst) p.1
        s9.calibrationFrames (by rw [h9k, hlen0]) (by simp)
        (by rw [hlen0]; omega)
      have hzoom := zoomCalibStep_stable (avgV ([w.2] ++ t.map Prod.snd))
        (rotCalibStep (some (avgV ([w.1] ++ t.map Prod.fst)))
          s9.calibrationFrames p.1).2.1 p.2
        (by rw [hrot.2, hlen0]; omega)
      refine ⟨?_, ?_, ?_⟩
      · rw [hfin.1, hrot.1]
        rfl
      · rw [hfin.2.2, hzoom]
        rfl
      · rw [hfin.2.1, hrot.2, hlen0]

/-- C3 witness: both hands visible together for 10 frames; the rotation
anchor averages its 10 samples, the zoom anchor only its first 9 (its
tenth sample, (100, 0, 0), is never absorbed). -/
theorem c3_witness :
    (runFrames (fun q => q) 0 initGestureState
        ((c3wPairs ++ [c3wLast]).map twoHandFrame)).hand0Calibration =
      some (avgV (c3wPairs.map Prod.fst ++ [c3wLast.1])) ∧
    (runFrames (fun q => q) 0 initGestureState
        ((c3wPairs ++ [c3wLast]).map twoHandFrame)).hand1Calibration =
      some (avgV (c3wPairs.map Prod.snd)) ∧
    (runFrames (fun q => q) 0 initGestureState
        ((c3wPairs ++ [c3wLast]).map twoHandFrame)).calibrationFrames = 10 :=
  c3_amended_anchors (fun q => q) 0 c3wPairs c3wLast (by decide)

/-- C3 counterexample: the rotation hand is present alone for two frames;
the zoom hand then appears with wrist (4, 0, 0) and next shows (0, 0, 0).
Its anchor becomes (4 * 3 + 0) / 4 = (3, 0, 0) — the seed inherits the
shared counter's weight 3 — while a running average of its own two samples
would be (2, 0, 0). -/
theorem c3_counterexample :
    (runFrames (fun q => q) 0 initGestureState c3Inputs).hand1Calibration =
      some ⟨3, 0, 0⟩ ∧
    avgV [⟨4, 0, 0⟩, Vec3.zero] = ⟨2, 0, 0⟩ ∧
    ((⟨3, 0, 0⟩ : Vec3) ≠ ⟨2, 0, 0⟩) := by
  refine ⟨?_, ?_, by decide⟩
  · norm_num [c3Inputs, runFrames, processHandResults, rotCalibStep,
      zoomCalibStep, selectHands, findHandIndices, mkHand, Vec3.zero,
      pinchDistance, CALIBRATION_FRAME_COUNT, Vec3.lerp, baseZoom,
      pinchScale, List.range_succ, initGestureState]
  · norm_num [avgV, Vec3.zero]

end HandTracker
